import Mathlib

/-!
Verification of the data-access layer of the Player Wellness Registration app
(src/main.py) against its natural-language specification.

The app is a Streamlit front end; the verified core is the database helper
functions `connect_to_mongodb`, `insert_data` and `get_player_ids`, the
session-identifier derivation used by the two form tabs, and the record
dictionaries the tabs submit.  External effects (the secrets store, the
MongoDB server, the wall clock) are modelled as explicit environment values
passed to the embedded functions; Python exceptions are modelled as an
`Except` error type, and the `try/except` blocks of the source become
explicit matches on that error type.
-/

namespace PlayerWellness

/-- Python runtime values that appear in the documents this app reads and
writes.  `pyNaN` stands for the pandas missing-value marker obtained when a
document lacks a column.  `pyDatetime` is an abstract wall-clock reading. -/
inductive PyValue where
  | pyInt (n : Int)
  | pyStr (s : String)
  | pyFloat (q : Rat)
  | pyBool (b : Bool)
  | pyDatetime (t : Nat)
  | pyNone
  | pyNaN
deriving DecidableEq, Repr

/-- Python exception values raised or caught by src/main.py.  Each
constructor is one concrete Python exception class; the `String` field is
the exception message (what `str(e)` shows, modulo quoting). -/
inductive PyErr where
  | keyError (msg : String)
  | valueError (msg : String)
  | connectionError (msg : String)
  | serverSelectionTimeoutError
  | duplicateKeyError (msg : String)
  | operationFailure (code : Int) (msg : String)
  | invalidDocument (msg : String)
  | runtimeError (msg : String)
  | otherException (msg : String)
deriving DecidableEq, Repr

/-- Python str() of an exception, as used when a message interpolates the
exception (`f"... {e}"`).  `str` of a `KeyError` shows the quoted argument;
for the other classes it is the message itself.  The quote glyphs around a
KeyError argument are elided in this model. -/
def pyErrStr : PyErr → String
  | .keyError m => m
  | .valueError m => m
  | .connectionError m => m
  | .serverSelectionTimeoutError => ""
  | .duplicateKeyError m => m
  | .operationFailure _ m => m
  | .invalidDocument m => m
  | .runtimeError m => m
  | .otherException m => m

/-- The `data` argument of `insert_data`: either a Python dict (an ordered
association list of string keys) or some non-dict value, of which only
truthiness matters to the source. -/
inductive PyData where
  | dict (entries : List (String × PyValue))
  | nonDict (truthy : Bool)
deriving DecidableEq, Repr

/-- Python truthiness test `not data` for the `data` argument. -/
def PyData.falsy : PyData → Bool
  | .dict es => es.isEmpty
  | .nonDict t => !t

/-- Python `isinstance(data, dict)`. -/
def PyData.isDictB : PyData → Bool
  | .dict _ => true
  | .nonDict _ => false

/-- The validated shape `insert_data` requires: a dict with at least one
entry. -/
def PyData.isNonEmptyDict : PyData → Prop
  | .dict es => es ≠ []
  | .nonDict _ => False

instance : DecidablePred PyData.isNonEmptyDict := by
  intro d
  cases d with
  | dict es => exact (inferInstance : Decidable (es ≠ []))
  | nonDict t => exact (inferInstance : Decidable False)

/-! ### The external environment of `connect_to_mongodb` -/

/-- What happens when the source builds a `MongoClient` and probes it with
`client.server_info()`: the probe succeeds, times out
(`ServerSelectionTimeoutError`), or raises some other exception. -/
inductive ServerProbe where
  | ok
  | timeout
  | fail (msg : String)
deriving DecidableEq, Repr

/-- One call's external environment: the contents of
`st.secrets["MongoDB"]` as an association list, and the behaviour of the
network probe. -/
structure ConnEnv where
  secrets : List (String × String)
  probe : ServerProbe
deriving DecidableEq, Repr

/-- A handle to a remote collection, as returned by `db[collection_name]`. -/
structure Collection where
  database : String
  collection : String
deriving DecidableEq, Repr

/-- The `required_secrets` list of src/main.py line 46, in source order. -/
def requiredSecrets : List String :=
  ["mongo_username", "mongo_password", "mongo_cluster_url", "database_name"]

/-- The validation loop of src/main.py lines 47-49: the first required
secret missing from the configuration, if any (the loop raises `KeyError`
at the first absent key). -/
def firstMissingSecret (secrets : List (String × String)) : Option String :=
  requiredSecrets.find? (fun s => (secrets.lookup s).isNone)

/-- The body of the `try` block of `connect_to_mongodb` (src/main.py lines
44-65): validate the four secrets, then attempt the network probe, then
return the collection handle.  The second component records whether a
network call (`MongoClient` construction plus `server_info`) was reached. -/
def connectBody (env : ConnEnv) (collection_name : String) :
    Except PyErr Collection × Bool :=
  match firstMissingSecret env.secrets with
  | some s => (.error (.keyError ("Missing required secret: " ++ s)), false)
  | none =>
    match env.probe with
    | .timeout => (.error .serverSelectionTimeoutError, true)
    | .fail msg => (.error (.otherException msg), true)
    | .ok =>
      (.ok ⟨(env.secrets.lookup "database_name").getD "", collection_name⟩, true)

/-- The structured classification of a connection failure, as reported by
the `except` branches of `connect_to_mongodb` (lines 67-78): which branch
ran, with the text its logged message interpolates (the `KeyError` text,
which names the missing key, or the catch-all exception text). -/
inductive ConnError where
  | missingConfiguration (detail : String)
  | connectionTimeout
  | unexpectedConnectionError (msg : String)
deriving DecidableEq, Repr

/-- What a call to `connect_to_mongodb` leaves behind: the value returned
to the caller (`Some` handle or `None`), the failure report the `except`
branches emit through `logger.error` and `st.error` (if any), and whether
a network call was attempted. -/
structure ConnResult where
  handle : Option Collection
  reported : Option ConnError
  networkAttempted : Bool
deriving DecidableEq, Repr

/-- The messages logged and shown by the `except` branches of
`connect_to_mongodb` (quote glyphs around the KeyError text elided). -/
def connErrorMessage : ConnError → String
  | .missingConfiguration detail =>
      "Missing MongoDB configuration in Streamlit secrets: " ++ detail
  | .connectionTimeout =>
      "Unable to connect to MongoDB server. Please check your internet connection or credentials."
  | .unexpectedConnectionError msg =>
      "Unexpected error connecting to MongoDB: " ++ msg

/-- `connect_to_mongodb` (src/main.py lines 29-80): run the try-block body
and catch `KeyError`, `ServerSelectionTimeoutError` and any other exception,
reporting each as a classified error and returning `None` to the caller.
The function is total: every failure is caught, none escapes. -/
def connect_to_mongodb (env : ConnEnv) (collection_name : String) : ConnResult :=
  match connectBody env collection_name with
  | (.ok c, net) => ⟨some c, none, net⟩
  | (.error e, net) =>
    match e with
    | .keyError m => ⟨none, some (.missingConfiguration m), net⟩
    | .serverSelectionTimeoutError => ⟨none, some .connectionTimeout, net⟩
    | e => ⟨none, some (.unexpectedConnectionError (pyErrStr e)), net⟩

/-! ### The write gateway `insert_data` -/

/-- What the remote does when `collection.insert_one(...)` runs: it returns
a result object (acknowledged flag plus inserted id), or raises one of the
pymongo exceptions the source handles, or raises anything else. -/
inductive InsertOutcome where
  | result (acknowledged : Bool) (inserted_id : String)
  | duplicateKey (details : String)
  | opFailure (code : Int) (details : String)
  | invalidDoc (msg : String)
  | otherError (msg : String)
deriving DecidableEq, Repr

/-- The environment of one `insert_data` call: the connection environment
it passes to `connect_to_mongodb`, and the remote behaviour of the single
`insert_one` call. -/
structure WriteEnv where
  conn : ConnEnv
  outcome : InsertOutcome
deriving DecidableEq, Repr

/-- The `except` handlers of `insert_data` (src/main.py lines 135-149):
each caught exception is re-raised transformed.  `DuplicateKeyError` is
re-raised as a `DuplicateKeyError` with a new message; `OperationFailure`
is re-raised with its remote code preserved; `InvalidDocument` is re-raised
as a `ValueError`; anything else is re-raised as a `RuntimeError`. -/
def insertHandlers (collection_name : String) : PyErr → PyErr
  | .duplicateKeyError _ =>
      .duplicateKeyError ("Document with this ID already exists in " ++ collection_name)
  | .operationFailure code details =>
      .operationFailure code ("Database operation failed: " ++ details)
  | .invalidDocument m => .valueError ("Invalid document format: " ++ m)
  | e => .runtimeError ("Failed to insert data: " ++ pyErrStr e)

/-- What a call to `insert_data` leaves behind: the Python result (a
returned bool, or a raised exception) and whether `connect_to_mongodb` was
ever called. -/
structure InsertResult where
  result : Except PyErr Bool
  connAttempted : Bool
deriving Repr

/-- `insert_data` (src/main.py lines 83-149).  Input validation happens
before the `try` block, so its `ValueError`s escape untransformed and no
connection is attempted.  Inside the `try` block: get a collection handle
(raising `ConnectionError` when it is `None`), run `insert_one`, return the
acknowledged flag; every exception raised inside the block passes through
`insertHandlers`. -/
def insert_data (env : WriteEnv) (collection_name : String) (data : PyData) :
    InsertResult :=
  if collection_name = "" then
    ⟨.error (.valueError "Collection name cannot be empty"), false⟩
  else if data.falsy || !data.isDictB then
    ⟨.error (.valueError "Data must be a non-empty dictionary"), false⟩
  else
    match (connect_to_mongodb env.conn collection_name).handle with
    | none =>
        ⟨.error (insertHandlers collection_name
          (.connectionError ("Failed to connect to collection " ++ collection_name))), true⟩
    | some _ =>
      match env.outcome with
      | .result ack _ => ⟨.ok ack, true⟩
      | .duplicateKey d =>
          ⟨.error (insertHandlers collection_name (.duplicateKeyError d)), true⟩
      | .opFailure code d =>
          ⟨.error (insertHandlers collection_name (.operationFailure code d)), true⟩
      | .invalidDoc m =>
          ⟨.error (insertHandlers collection_name (.invalidDocument m)), true⟩
      | .otherError m =>
          ⟨.error (insertHandlers collection_name (.otherException m)), true⟩

/-! ### The roster lookup `get_player_ids` -/

/-- Python str() of a document value, as pandas applies it elementwise when
an object column is cast with astype(str).  Floats written by this app are
halves from the sleep slider, so the float case covers integral and .5
values exactly; other denominators never occur in its data. -/
def pyStrOfValue : PyValue → String
  | .pyStr s => s
  | .pyInt n => toString n
  | .pyFloat q =>
      if q.den = 1 then toString q.num ++ ".0"
      else if q.den = 2 then toString (q.num / 2) ++ ".5"
      else toString q.num ++ "/" ++ toString q.den
  | .pyBool b => if b then "True" else "False"
  | .pyDatetime t => "datetime-" ++ toString t
  | .pyNone => "None"
  | .pyNaN => "nan"

/-- The documents `collection.find()` yields: each an association list of
field name to value. -/
abbrev Document := List (String × PyValue)

/-- The pandas steps of `get_player_ids` (src/main.py lines 166-168):
build a DataFrame from the fetched documents, select the player_id column,
cast it to str.  Selecting the column raises `KeyError` when no document
has the field (in particular when the collection is empty, since an empty
DataFrame has no columns).  When some documents lack the field, their cells
are NaN; a numeric column containing NaN is promoted to float, so integer
ids then render with a trailing .0, as pandas does. -/
def rosterColumn (docs : List Document) (key : String) :
    Except PyErr (List String) :=
  if docs.all (fun d => (d.lookup key).isNone) then
    .error (.keyError key)
  else
    let cells := docs.map (fun d => d.lookup key)
    let hasMissing := cells.any Option.isNone
    let allIntPresent := cells.all (fun c =>
      match c with
      | some (PyValue.pyInt _) => true
      | some _ => false
      | none => true)
    let toFloat := hasMissing && allIntPresent
    .ok (cells.map (fun c =>
      match c with
      | none => "nan"
      | some (.pyInt n) => if toFloat then toString n ++ ".0" else toString n
      | some v => pyStrOfValue v))

/-- The environment of one `get_player_ids` call: the connection
environment and the documents of the roster collection. -/
structure RosterEnv where
  conn : ConnEnv
  docs : List Document
deriving DecidableEq, Repr

/-- The body of the `try` block of `get_player_ids` (src/main.py lines
161-168): connect to the roster collection (raising `ConnectionError` when
the handle is `None`), fetch all documents, extract and string-cast the
player_id column. -/
def getPlayerIdsBody (env : RosterEnv) : Except PyErr (List String) :=
  match (connect_to_mongodb env.conn "roster").handle with
  | none => .error (.connectionError "Could not connect to MongoDB")
  | some _ => rosterColumn env.docs "player_id"

/-- `get_player_ids` (src/main.py lines 151-173): run the body and absorb
every exception into an empty result (line 173 returns an empty Series).
The function is total: it never raises to its caller. -/
def get_player_ids (env : RosterEnv) : List String :=
  match getPlayerIdsBody env with
  | .ok ids => ids
  | .error _ => []

/-! ### Session identifiers and the form tabs' submitted records -/

/-- A Python `datetime.date` value, as produced by `st.date_input`. -/
structure PyDate where
  year : Nat
  month : Nat
  day : Nat
deriving DecidableEq, Repr

/-- Decimal rendering of a natural, left-padded with zeros to `w` digits. -/
def padZeros (w : Nat) (n : Nat) : String :=
  let s := toString n
  String.mk (List.replicate (w - s.length) (Char.ofNat 48)) ++ s

/-- Python `date.strftime("%Y%m%d")`: four-digit year, two-digit month,
two-digit day, all zero-padded. -/
def strftimeYmd (d : PyDate) : String :=
  padZeros 4 d.year ++ padZeros 2 d.month ++ padZeros 2 d.day

/-- Python `datetime.combine(date, datetime.min.time()).isoformat()` as the
tabs store the session date: the ISO date followed by midnight. -/
def isoMidnight (d : PyDate) : String :=
  padZeros 4 d.year ++ "-" ++ padZeros 2 d.month ++ "-" ++ padZeros 2 d.day ++ "T00:00:00"

/-- Modelled from the spec: the pure function deriveSessionId of section
4.4, the date formatted YYYYMMDD concatenated with the letter U and the
first two characters of the string form of the player id.  The source has
no named function; this definition states the specified rule, to be
compared with the inline expressions of the two tabs. -/
def deriveSessionId (d : PyDate) (player_id : String) : String :=
  strftimeYmd d ++ "U" ++ player_id.take 2

/-- The inline session-id expression of `pre_training_tab` (src/main.py
line 220): the f-string interpolating `pre_date.strftime("%Y%m%d")`, the
letter U, and `str(pre_player_id)[:2]`. -/
def preSessionId (pre_date : PyDate) (pre_player_id : String) : String :=
  strftimeYmd pre_date ++ "U" ++ pre_player_id.take 2

/-- The inline session-id expression of `post_training_tab` (src/main.py
line 303), textually identical to the pre-training one. -/
def postSessionId (post_date : PyDate) (post_player_id : String) : String :=
  strftimeYmd post_date ++ "U" ++ post_player_id.take 2

/-- Decimal digits to their value, for the model of Python int(). -/
def digitsToNat (cs : List Char) : Option Nat :=
  if cs = [] ∨ ¬ cs.all Char.isDigit then none
  else some (cs.foldl (fun acc c => 10 * acc + (c.toNat - 48)) 0)

/-- Python `int(s)` on a string: an optional sign followed by at least one
digit parses to the signed decimal value; anything else raises
`ValueError`.  (Surrounding whitespace, underscores and non-ASCII digits
are not modelled; roster ids are plain decimals.) -/
def pyIntOfString (s : String) : Option Int :=
  match s.data with
  | [] => none
  | c :: rest =>
    if c = Char.ofNat 45 then (digitsToNat rest).map (fun n => -(n : Int))
    else if c = Char.ofNat 43 then (digitsToNat rest).map (fun n => (n : Int))
    else (digitsToNat (c :: rest)).map (fun n => (n : Int))

/-- Wrap an integer into the signed 32-bit range, as `np.int32` does. -/
def toInt32 (n : Int) : Int :=
  (n + 2 ^ 31) % 2 ^ 32 - 2 ^ 31

/-- Python `np.int32(s)` on a string: parse as `int(s)` then wrap to the
signed 32-bit range. -/
def npInt32OfString (s : String) : Option Int :=
  (pyIntOfString s).map toInt32

/-- The wellness document built by `pre_training_tab` on submission
(src/main.py lines 245-252).  `pre_player_id` is the string selected from
the roster dropdown; `int(pre_player_id)` raises `ValueError` when it is
not a decimal literal, and otherwise the dict literal is built with the
submission-time clock reading `now` as its timestamp. -/
def mkWellnessEntry (pre_player_id : String) (pre_date : PyDate)
    (pre_training_feeling : Option Int) (sleep_hours : Rat) (now : Nat) :
    Except PyErr Document :=
  match pyIntOfString pre_player_id with
  | none =>
      .error (.valueError ("invalid literal for int with base 10: " ++ pre_player_id))
  | some n =>
      .ok [("player_id", .pyInt n),
           ("session_id", .pyStr (preSessionId pre_date pre_player_id)),
           ("date", .pyStr (isoMidnight pre_date)),
           ("feeling", match pre_training_feeling with
                       | some f => .pyInt f
                       | none => .pyNone),
           ("sleep_hours", .pyFloat sleep_hours),
           ("timestamp", .pyDatetime now)]

/-- The RPE document built by `post_training_tab` on submission
(src/main.py lines 340-348).  `np.int32(post_player_id)` parses the
selected roster string and wraps it to 32 bits; the dict literal carries
the submission-time clock reading `now` as its timestamp. -/
def mkRpeEntry (post_player_id : String) (post_date : PyDate)
    (post_session_rpe : Int) (training_minutes : Int)
    (individual_session : Bool) (now : Nat) :
    Except PyErr Document :=
  match npInt32OfString post_player_id with
  | none =>
      .error (.valueError ("invalid literal for int with base 10: " ++ post_player_id))
  | some n =>
      .ok [("player_id", .pyInt n),
           ("session_id", .pyStr (postSessionId post_date post_player_id)),
           ("date", .pyStr (isoMidnight post_date)),
           ("rpe_score", .pyInt post_session_rpe),
           ("training_minutes", .pyInt training_minutes),
           ("individual_session", .pyBool individual_session),
           ("timestamp", .pyDatetime now)]

/-- A configuration holding all four required secrets, for concrete
instantiations. -/
def fullSecrets : List (String × String) :=
  [("mongo_username", "user"), ("mongo_password", "pass"),
   ("mongo_cluster_url", "cluster.example.net"), ("database_name", "wellness")]

/-- A roster environment whose single player_id does not fit in a signed
32-bit integer, for concrete instantiations. -/
def rosterEnvBig : RosterEnv :=
  ⟨⟨fullSecrets, .ok⟩, [[("player_id", .pyInt 3000000000)]]⟩

/-! ## Theorems -/

/-- The validated-input test of `insert_data` passes exactly on non-empty
dicts. -/
theorem validData_check (data : PyData) (h : data.isNonEmptyDict) :
    (data.falsy || !data.isDictB) = false := by
  cases data with
  | dict es =>
    have hne : es ≠ [] := h
    simp [PyData.falsy, PyData.isDictB, hne]
  | nonDict t => exact h.elim

/-- Evaluation of `insert_data` when both preconditions hold and a
collection handle is obtained: the call reaches `insert_one` and its result
is the remote outcome pushed through the exception handlers. -/
theorem insert_data_outcome (env : WriteEnv) (cn : String) (data : PyData)
    (hcn : cn ≠ "") (hdata : data.isNonEmptyDict)
    (hconn : ((connect_to_mongodb env.conn cn).handle).isSome) :
    insert_data env cn data =
      ⟨match env.outcome with
        | .result ack _ => .ok ack
        | .duplicateKey d => .error (insertHandlers cn (.duplicateKeyError d))
        | .opFailure code d => .error (insertHandlers cn (.operationFailure code d))
        | .invalidDoc m => .error (insertHandlers cn (.invalidDocument m))
        | .otherError m => .error (insertHandlers cn (.otherException m)), true⟩ := by
  rcases Option.isSome_iff_exists.mp hconn with ⟨c, hc⟩
  unfold insert_data
  rw [if_neg hcn, if_neg (by simp [validData_check data hdata]), hc]
  cases env.outcome <;> rfl

/-- C1: with a non-empty collection name, a non-empty record, a collection
handle obtained and the remote insert completing with a result object,
insert_data returns exactly the remote acknowledged flag: true if and only
if the write is acknowledged, and false (a returned value, not a raised
exception) when it is not. -/
theorem insert_ack_iff (env : WriteEnv) (cn : String) (data : PyData)
    (hcn : cn ≠ "") (hdata : data.isNonEmptyDict)
    (hconn : ((connect_to_mongodb env.conn cn).handle).isSome)
    (ack : Bool) (oid : String) (hout : env.outcome = .result ack oid) :
    (insert_data env cn data).result = .ok ack := by
  rw [insert_data_outcome env cn data hcn hdata hconn, hout]

/-- Witness for C1: a concrete acknowledged write returns true and a
concrete unacknowledged write returns false without an exception. -/
theorem insert_ack_iff_witness :
    (insert_data ⟨⟨fullSecrets, .ok⟩, .result true "id1"⟩ "player_wellness"
      (.dict [("name", .pyStr "John")])).result = .ok true ∧
    (insert_data ⟨⟨fullSecrets, .ok⟩, .result false "id2"⟩ "player_wellness"
      (.dict [("name", .pyStr "John")])).result = .ok false :=
  ⟨insert_ack_iff _ _ _ (by decide) (by simp [PyData.isNonEmptyDict])
      (by decide) true "id1" rfl,
   insert_ack_iff _ _ _ (by decide) (by simp [PyData.isNonEmptyDict])
      (by decide) false "id2" rfl⟩

/-- C2: an empty collection name, or a record that is empty or not a dict,
makes insert_data fail with the precondition ValueError, and
connect_to_mongodb is never called. -/
theorem insert_invalid_argument (env : WriteEnv) (cn : String) (data : PyData)
    (h : cn = "" ∨ ¬ data.isNonEmptyDict) :
    (∃ msg, (insert_data env cn data).result = .error (.valueError msg)) ∧
    (insert_data env cn data).connAttempted = false := by
  by_cases hcn : cn = ""
  · unfold insert_data
    rw [if_pos hcn]
    exact ⟨⟨_, rfl⟩, rfl⟩
  · rcases h with h | h
    · exact absurd h hcn
    · have hbad : (data.falsy || !data.isDictB) = true := by
        cases data with
        | dict es =>
          have hnil : es = [] := by
            by_contra hne
            exact h hne
          simp [PyData.falsy, hnil]
        | nonDict t => simp [PyData.isDictB]
      unfold insert_data
      rw [if_neg hcn, if_pos hbad]
      exact ⟨⟨_, rfl⟩, rfl⟩

/-- Witness for C2: the two specified calls, with an empty name and with an
empty dict, both fail with the ValueError and never attempt a connection. -/
theorem insert_invalid_argument_witness :
    ((∃ msg, (insert_data ⟨⟨fullSecrets, .ok⟩, .result true "i"⟩ ""
        (.dict [("name", .pyStr "John")])).result = .error (.valueError msg)) ∧
      (insert_data ⟨⟨fullSecrets, .ok⟩, .result true "i"⟩ ""
        (.dict [("name", .pyStr "John")])).connAttempted = false) ∧
    ((∃ msg, (insert_data ⟨⟨fullSecrets, .ok⟩, .result true "i"⟩ "x"
        (.dict [])).result = .error (.valueError msg)) ∧
      (insert_data ⟨⟨fullSecrets, .ok⟩, .result true "i"⟩ "x"
        (.dict [])).connAttempted = false) :=
  ⟨insert_invalid_argument _ _ _ (Or.inl rfl),
   insert_invalid_argument _ _ _ (Or.inr (by simp [PyData.isNonEmptyDict]))⟩

/-- C4: session identifier derivation.  Both form tabs compute the session
id exactly as the pure rule deriveSessionId states: the date rendered
YYYYMMDD, the letter U, and the first two characters of the player id
string; a one-character id is kept whole with no padding, and the two
specified examples evaluate as stated. -/
theorem session_id_derivation :
    (∀ d pid, preSessionId d pid = deriveSessionId d pid) ∧
    (∀ d pid, postSessionId d pid = deriveSessionId d pid) ∧
    (∀ d pid, pid.length = 1 → deriveSessionId d pid = strftimeYmd d ++ "U" ++ pid) ∧
    deriveSessionId ⟨2024, 6, 1⟩ "42" = "20240601U42" ∧
    deriveSessionId ⟨2024, 6, 1⟩ "4" = "20240601U4" := by
  refine ⟨fun d pid => rfl, fun d pid => rfl, ?_, by decide, by decide⟩
  intro d pid h1
  have hlen : pid.data.length = 1 := h1
  have htake : pid.take 2 = pid := by
    apply String.ext
    rw [String.data_take]
    exact List.take_of_length_le (by omega)
  rw [deriveSessionId, htake]

/-- C3: for each of the four required configuration keys, a configuration
holding the other three but not that key makes connect_to_mongodb report a
missing-configuration failure whose detail text names exactly that key,
return no handle, and attempt no network call. -/
theorem connect_missing_key_reported (secrets : List (String × String))
    (probe : ServerProbe) (cn k : String) (hk : k ∈ requiredSecrets)
    (habsent : (secrets.lookup k).isNone)
    (hothers : ∀ s ∈ requiredSecrets, s ≠ k → (secrets.lookup s).isSome) :
    connect_to_mongodb ⟨secrets, probe⟩ cn =
      ⟨none, some (.missingConfiguration ("Missing required secret: " ++ k)), false⟩ := by
  have hps : ∀ s ∈ requiredSecrets, s ≠ k → (secrets.lookup s).isNone = false := by
    intro s hsmem hsne
    rcases Option.isSome_iff_exists.mp (hothers s hsmem hsne) with ⟨v, hv⟩
    rw [hv]
    rfl
  have hfind : firstMissingSecret secrets = some k := by
    fin_cases hk
    · simp only [firstMissingSecret, requiredSecrets, List.find?_cons, habsent]
    · have h1 := hps "mongo_username" (by decide) (by decide)
      simp only [firstMissingSecret, requiredSecrets, List.find?_cons, h1, habsent]
    · have h1 := hps "mongo_username" (by decide) (by decide)
      have h2 := hps "mongo_password" (by decide) (by decide)
      simp only [firstMissingSecret, requiredSecrets, List.find?_cons, h1, h2, habsent]
    · have h1 := hps "mongo_username" (by decide) (by decide)
      have h2 := hps "mongo_password" (by decide) (by decide)
      have h3 := hps "mongo_cluster_url" (by decide) (by decide)
      simp only [firstMissingSecret, requiredSecrets, List.find?_cons, h1, h2, h3,
        habsent]
  simp [connect_to_mongodb, connectBody, hfind]

/-- C6: every connection failure is absorbed rather than propagated, and
the report classifies which of the three failure modes occurred: a missing
configuration key is reported before any network attempt, a probe timeout
is reported as the timeout mode, any other probe failure as the unexpected
mode; the three classifications are pairwise distinct values, and a
failure report is present exactly when no handle is returned. -/
theorem connect_failure_modes_classified (secrets : List (String × String))
    (cn : String) :
    (∀ k, firstMissingSecret secrets = some k →
      ∀ probe, connect_to_mongodb ⟨secrets, probe⟩ cn =
        ⟨none, some (.missingConfiguration ("Missing required secret: " ++ k)), false⟩) ∧
    (firstMissingSecret secrets = none →
      connect_to_mongodb ⟨secrets, .timeout⟩ cn =
        ⟨none, some .connectionTimeout, true⟩ ∧
      ∀ msg, connect_to_mongodb ⟨secrets, .fail msg⟩ cn =
        ⟨none, some (.unexpectedConnectionError msg), true⟩) ∧
    (∀ {d msg}, ConnError.missingConfiguration d ≠ .connectionTimeout ∧
      ConnError.missingConfiguration d ≠ .unexpectedConnectionError msg ∧
      ConnError.connectionTimeout ≠ .unexpectedConnectionError msg) ∧
    (∀ env : ConnEnv, (connect_to_mongodb env cn).handle = none ↔
      ((connect_to_mongodb env cn).reported).isSome) := by
  refine ⟨?_, ?_, ⟨by simp, by simp, by simp⟩, ?_⟩
  · intro k hk probe
    simp [connect_to_mongodb, connectBody, hk]
  · intro hnone
    exact ⟨by simp [connect_to_mongodb, connectBody, hnone],
      fun msg => by simp [connect_to_mongodb, connectBody, hnone, pyErrStr]⟩
  · intro env
    unfold connect_to_mongodb
    rcases hb : connectBody env cn with ⟨res, net⟩
    cases res with
    | ok c => simp
    | error e => cases e <;> simp

/-- Witness for C3: a configuration holding every required key except the
password yields the missing-configuration report naming the password key,
with no handle and no network attempt. -/
theorem connect_missing_key_reported_witness :
    connect_to_mongodb ⟨[("mongo_username", "user"),
        ("mongo_cluster_url", "cluster.example.net"), ("database_name", "wellness")],
        .ok⟩ "roster" =
      ⟨none, some (.missingConfiguration ("Missing required secret: " ++ "mongo_password")),
        false⟩ :=
  connect_missing_key_reported _ _ "roster" "mongo_password" (by decide) (by decide)
    (by decide)

/-- C5: every failure inside the roster lookup is absorbed: whenever the
body raises any exception the caller receives the empty sequence, in
particular when no collection handle is obtained and when the roster
server probe times out (an unreachable roster); get_player_ids itself
never raises. -/
theorem get_player_ids_absorbs_failures (env : RosterEnv) :
    (∀ e, getPlayerIdsBody env = .error e → get_player_ids env = []) ∧
    ((connect_to_mongodb env.conn "roster").handle = none →
      get_player_ids env = []) ∧
    (env.conn.probe = .timeout → get_player_ids env = []) := by
  obtain ⟨⟨secrets, probe⟩, docs⟩ := env
  have habs : ∀ e, getPlayerIdsBody ⟨⟨secrets, probe⟩, docs⟩ = .error e →
      get_player_ids ⟨⟨secrets, probe⟩, docs⟩ = [] := by
    intro e he
    unfold get_player_ids
    rw [he]
  have hnone : (connect_to_mongodb ⟨secrets, probe⟩ "roster").handle = none →
      get_player_ids ⟨⟨secrets, probe⟩, docs⟩ = [] := by
    intro hn
    apply habs (.connectionError "Could not connect to MongoDB")
    unfold getPlayerIdsBody
    rw [hn]
  refine ⟨habs, hnone, ?_⟩
  intro hto
  have hto2 : probe = .timeout := hto
  subst hto2
  apply hnone
  unfold connect_to_mongodb connectBody
  cases hf : firstMissingSecret secrets <;> simp

/-- Witness for C5: with an unreachable roster collection (probe timeout),
the lookup returns the empty sequence. -/
theorem get_player_ids_absorbs_failures_witness :
    get_player_ids ⟨⟨fullSecrets, .timeout⟩, [[("player_id", .pyInt 7)]]⟩ = [] :=
  (get_player_ids_absorbs_failures _).2.2 rfl

/-- Evaluation of the pandas column extraction when every document carries
the player_id field: no cell is missing, so no float promotion happens and
each cell is string-cast with Python str(). -/
theorem rosterColumn_all_present (docs : List Document) (hne : docs ≠ [])
    (hall : ∀ d ∈ docs, (d.lookup "player_id").isSome) :
    rosterColumn docs "player_id" =
      .ok (docs.map (fun d => pyStrOfValue ((d.lookup "player_id").getD .pyNaN))) := by
  unfold rosterColumn
  have hps : ∀ d ∈ docs, (d.lookup "player_id").isNone = false := by
    intro d hd
    rcases Option.isSome_iff_exists.mp (hall d hd) with ⟨v, hv⟩
    rw [hv]
    rfl
  have hnotall : docs.all (fun d => (d.lookup "player_id").isNone) = false := by
    rcases docs with _ | ⟨d, ds⟩
    · exact absurd rfl hne
    · simp only [List.all_cons, Bool.and_eq_false_iff]
      exact Or.inl (hps d (by simp))
  rw [if_neg (by simp [hnotall])]
  have hmiss : (docs.map (fun d => d.lookup "player_id")).any Option.isNone = false := by
    rw [List.any_eq_false]
    intro cell hcmem
    rcases List.mem_map.mp hcmem with ⟨doc, hdoc, rfl⟩
    rcases Option.isSome_iff_exists.mp (hall doc hdoc) with ⟨v, hv⟩
    simp [hv]
  simp only [hmiss, Bool.false_and, Except.ok.injEq]
  rw [List.map_map]
  apply List.map_congr_left
  intro d hd
  rcases Option.isSome_iff_exists.mp (hall d hd) with ⟨v, hv⟩
  simp only [Function.comp, hv, Option.getD_some]
  cases v <;> rfl

/-- C8: when every roster document carries a player_id field and the
collection is reachable, get_player_ids returns exactly one string per
document: the Python str() of that document's player_id value, in document
order. -/
theorem get_player_ids_maps_roster (env : RosterEnv)
    (hconn : ((connect_to_mongodb env.conn "roster").handle).isSome)
    (hall : ∀ d ∈ env.docs, (d.lookup "player_id").isSome) :
    get_player_ids env =
      env.docs.map (fun d => pyStrOfValue ((d.lookup "player_id").getD .pyNaN)) := by
  rcases Option.isSome_iff_exists.mp hconn with ⟨c, hc⟩
  by_cases hne : env.docs = []
  · unfold get_player_ids getPlayerIdsBody
    rw [hc, hne]
    rfl
  · have hcol := rosterColumn_all_present env.docs hne hall
    unfold get_player_ids getPlayerIdsBody
    rw [hc, hcol]

/-- Witness for C8: roster documents with player_id 7 and 12 yield the
strings 7 and 12, one per document. -/
theorem get_player_ids_maps_roster_witness :
    get_player_ids ⟨⟨fullSecrets, .ok⟩,
      [[("player_id", .pyInt 7)], [("player_id", .pyInt 12)]]⟩ = ["7", "12"] := by
  rw [get_player_ids_maps_roster _ (by decide) (by decide)]
  decide

/-- C10: with a reachable but empty roster collection the lookup body
raises the pandas KeyError for the missing column, so the public result is
the empty sequence, identical to the result of any failed lookup: the
caller cannot distinguish an empty roster from a failure. -/
theorem empty_roster_error_path (conn : ConnEnv)
    (hconn : ((connect_to_mongodb conn "roster").handle).isSome) :
    getPlayerIdsBody ⟨conn, []⟩ = .error (.keyError "player_id") ∧
    get_player_ids ⟨conn, []⟩ = [] ∧
    (∀ env : RosterEnv, (connect_to_mongodb env.conn "roster").handle = none →
      get_player_ids ⟨conn, []⟩ = get_player_ids env) := by
  rcases Option.isSome_iff_exists.mp hconn with ⟨c, hc⟩
  have hbody : getPlayerIdsBody ⟨conn, []⟩ = .error (.keyError "player_id") := by
    unfold getPlayerIdsBody
    rw [hc]
    rfl
  have hempty : get_player_ids ⟨conn, []⟩ = [] := by
    unfold get_player_ids
    rw [hbody]
  refine ⟨hbody, hempty, ?_⟩
  intro env hn
  rw [hempty]
  unfold get_player_ids getPlayerIdsBody
  rw [hn]

/-- Witness for C10: a reachable empty roster takes the KeyError path and
returns the empty sequence. -/
theorem empty_roster_error_path_witness :
    getPlayerIdsBody ⟨⟨fullSecrets, .ok⟩, []⟩ = .error (.keyError "player_id") ∧
    get_player_ids ⟨⟨fullSecrets, .ok⟩, []⟩ = [] ∧
    (∀ env : RosterEnv, (connect_to_mongodb env.conn "roster").handle = none →
      get_player_ids ⟨⟨fullSecrets, .ok⟩, []⟩ = get_player_ids env) :=
  empty_roster_error_path ⟨fullSecrets, .ok⟩ (by decide)

/-- Parsing then wrapping to 32 bits is the identity on in-range values. -/
theorem toInt32_of_range (n : Int) (hlo : -(2 ^ 31) ≤ n) (hhi : n < 2 ^ 31) :
    toInt32 n = n := by
  unfold toInt32
  rw [Int.emod_eq_of_lt (by omega) (by omega)]
  omega

/-- Counterexample to C9 as stated: the roster id 3000000000 is returned
by the roster lookup, so the dropdown offers it, yet the RPE record built
for it stores the 32-bit-wrapped player_id -1294967296: its stored form
disagrees with the numeric value of the roster identifier, so the written
record is not consistent with the roster identifier. -/
theorem written_records_wrap_counterexample :
    "3000000000" ∈ get_player_ids rosterEnvBig ∧
    mkRpeEntry "3000000000" ⟨2024, 6, 1⟩ 5 60 false 7777 =
      .ok [("player_id", .pyInt (-1294967296)),
           ("session_id", .pyStr "20240601U30"),
           ("date", .pyStr "2024-06-01T00:00:00"),
           ("rpe_score", .pyInt 5),
           ("training_minutes", .pyInt 60),
           ("individual_session", .pyBool false),
           ("timestamp", .pyDatetime 7777)] ∧
    pyIntOfString "3000000000" = some 3000000000 ∧
    pyStrOfValue (.pyInt (-1294967296)) ≠ "3000000000" ∧
    (-1294967296 : Int) ≠ 3000000000 :=
  ⟨by decide, by rfl, by decide, by decide, by decide⟩

/-- C9 as amended: every record either tab submits carries a timestamp
equal to the submission-time clock reading and a player_id derived from
the selected roster identifier string: the wellness tab stores exactly its
integer value int(pid), while the RPE tab stores np.int32(pid), the value
wrapped to signed 32 bits, which agrees with the roster identifier exactly
when that value lies in the 32-bit range. -/
theorem written_records_roster_and_timestamp (pid : String) (n : Int)
    (hn : pyIntOfString pid = some n) :
    (∀ d feeling sh now e, mkWellnessEntry pid d feeling sh now = .ok e →
      e.lookup "player_id" = some (.pyInt n) ∧
      e.lookup "timestamp" = some (.pyDatetime now)) ∧
    (∀ d rpe mins ind now e, mkRpeEntry pid d rpe mins ind now = .ok e →
      e.lookup "player_id" = some (.pyInt (toInt32 n)) ∧
      e.lookup "timestamp" = some (.pyDatetime now)) ∧
    (-(2 ^ 31) ≤ n → n < 2 ^ 31 → toInt32 n = n) := by
  refine ⟨?_, ?_, fun hlo hhi => toInt32_of_range n hlo hhi⟩
  · intro d feeling sh now e he
    unfold mkWellnessEntry at he
    rw [hn] at he
    injection he with he2
    rw [← he2]
    exact ⟨rfl, rfl⟩
  · intro d rpe mins ind now e he
    have hn32 : npInt32OfString pid = some (toInt32 n) := by
      unfold npInt32OfString
      rw [hn, Option.map_some']
    unfold mkRpeEntry at he
    rw [hn32] at he
    injection he with he2
    rw [← he2]
    exact ⟨rfl, rfl⟩

/-- Witness for C9 as amended: the roster id 42 produces a wellness record
whose player_id is the integer 42 and whose timestamp is the submission
clock reading. -/
theorem written_records_roster_and_timestamp_witness :
    List.lookup "player_id"
        [("player_id", PyValue.pyInt 42),
         ("session_id", PyValue.pyStr (preSessionId ⟨2024, 6, 1⟩ "42")),
         ("date", PyValue.pyStr (isoMidnight ⟨2024, 6, 1⟩)),
         ("feeling", PyValue.pyInt 3),
         ("sleep_hours", PyValue.pyFloat 8),
         ("timestamp", PyValue.pyDatetime 7777)] = some (.pyInt 42) ∧
    List.lookup "timestamp"
        [("player_id", PyValue.pyInt 42),
         ("session_id", PyValue.pyStr (preSessionId ⟨2024, 6, 1⟩ "42")),
         ("date", PyValue.pyStr (isoMidnight ⟨2024, 6, 1⟩)),
         ("feeling", PyValue.pyInt 3),
         ("sleep_hours", PyValue.pyFloat 8),
         ("timestamp", PyValue.pyDatetime 7777)] = some (.pyDatetime 7777) :=
  (written_records_roster_and_timestamp "42" 42 (by decide)).1
    ⟨2024, 6, 1⟩ (some 3) 8 7777 _ rfl

end PlayerWellness
